import Mathlib

/-!
Shallow embedding of diffsitter's `src/config.rs`: the layered configuration
resolution engine — OS default-path resolution, candidate-path resolution,
format dispatch by file extension, and the hierarchical merge of defaults,
config files and environment overrides.

Paths are modelled as strings, the filesystem as an explicit state value
(existing directories, to observe directory creation, plus readable file
contents per path), and file text abstractly as a `Content` value classified
by the concrete syntax it is written in.  Machine effects (logging, I/O
faults) are out of scope; all fallible operations return `Except`.
-/

/-- The expected filename for the config file (`CFG_FILE_NAME` in the source). -/
def CFG_FILE_NAME : String := "config.json5"

/-- Modelled from the spec: `RenderConfig` ("formatting options for display") is
defined outside `src/` and carries inert data with a built-in default, so it is
modelled as an abstract option payload. -/
structure RenderConfig where
  payload : List (String × String) := []
  deriving DecidableEq

/-- Modelled from the spec: `GrammarConfig` ("options for loading" grammars) is
defined outside `src/` and carries inert data with a built-in default. -/
structure GrammarConfig where
  payload : List (String × String) := []
  deriving DecidableEq

/-- Modelled from the spec: `TreeSitterProcessor` ("options for processing
tree-sitter input") is defined outside `src/` and carries inert data with a
built-in default. -/
structure TreeSitterProcessor where
  payload : List (String × String) := []
  deriving DecidableEq

/-- The config struct for the application (`Config` in `src/config.rs`), declared
with `#[serde(rename_all = "kebab-case", default)]` and `#[derive(Default)]`.
The Rust `HashMap<String, String>` is modelled as an association list. -/
structure Config where
  file_associations : Option (List (String × String)) := none
  formatting : RenderConfig := {}
  grammar : GrammarConfig := {}
  input_processing : TreeSitterProcessor := {}
  fallback_cmd : Option String := none
  deriving DecidableEq

/-- `Config::default()`: every field takes its derived default. -/
def Config.default : Config := {}

/-- A sparse overlay of `Config`: for each field, `some v` means the source sets
the field to `v`, `none` means the source leaves it unspecified.  This is the
shape a single provider (one config file, or the prefixed environment) supplies
to figment's merge. -/
structure Fragment where
  file_associations : Option (Option (List (String × String))) := none
  formatting : Option RenderConfig := none
  grammar : Option GrammarConfig := none
  input_processing : Option TreeSitterProcessor := none
  fallback_cmd : Option (Option String) := none
  deriving DecidableEq

/-- figment's `Figment::merge` as it acts on `Config`'s top-level fields: the
later provider overrides exactly the fields it supplies; fields it leaves
unspecified keep the accumulator's value.  (Granularity below `Config`'s
top-level fields is not needed by any property proved here.) -/
def mergeFragment (c : Config) (f : Fragment) : Config :=
  { file_associations := f.file_associations.getD c.file_associations
    formatting := f.formatting.getD c.formatting
    grammar := f.grammar.getD c.grammar
    input_processing := f.input_processing.getD c.input_processing
    fallback_cmd := f.fallback_cmd.getD c.fallback_cmd }

/-- The fragment that sets every field to the given config's value (the shape
serde serialization of a whole `Config` produces). -/
def toFragment (c : Config) : Fragment :=
  { file_associations := some c.file_associations
    formatting := some c.formatting
    grammar := some c.grammar
    input_processing := some c.input_processing
    fallback_cmd := some c.fallback_cmd }

/-- Abstract model of a file's text, classified by the concrete syntax it is
written in.  `json5Doc f ks` is a JSON5 document that sets exactly the `Config`
fields present in `f` and additionally contains the top-level keys `ks`, none of
which matches a `Config` field.  `tomlDoc` is the same for a TOML document (a
TOML document is not also valid JSON5).  `malformed` parses under no supported
format. -/
inductive Content
  | json5Doc (frag : Fragment) (unknownKeys : List String)
  | tomlDoc (frag : Fragment) (unknownKeys : List String)
  | malformed
  deriving DecidableEq

/-- Filesystem state: the directories that exist (so directory creation is
observable) and the readable file contents per path (`none` = no such file). -/
structure FileSystem where
  dirs : List String := []
  files : String → Option Content := fun _ => none

/-- The process environment consulted by the xdg base-directory lookup. -/
structure OsEnv where
  home : Option String := none
  xdgConfigHome : Option String := none
  deriving DecidableEq

/-- Modelled from the spec: the CLI arguments the config core consumes
(`cli::Args` lives outside `src/`): an optional explicit config file path and
the `--no-config` flag. -/
structure Args where
  no_config : Bool := false
  config : Option String := none
  deriving DecidableEq

/-- The error cases of `Config::try_from_file` (`ReadError` in the source). -/
inductive ReadError
  | DeserializationFailure (path : String)
  | ReadFileFailure
  | NoDefault
  deriving DecidableEq

/-- The error cases arising inside `Config::new` and its helpers (represented as
`anyhow::Error` values in the source, distinguished here by provenance):
failure to compute the default path, a path without a valid extension, an
unrecognized extension, and a deserialization failure for a candidate file. -/
inductive ConfigError
  | noDefaultPath
  | invalidExtensionPath (path : String)
  | unrecognizedExtension (ext : String)
  | deserializationFailure (path : String)
  deriving DecidableEq

/-- The parser formats figment can dispatch to (`Json` and `Toml` providers). -/
inductive FileFormat
  | json
  | toml
  deriving DecidableEq

/-- The final path component of a path (Rust `Path::file_name`): the characters
after the last `/`. -/
def fileNameChars (p : List Char) : List Char :=
  (p.reverse.takeWhile (fun c => c ≠ '/')).reverse

/-- Rust `Path::extension().and_then(OsStr::to_str)`: the part of the file name
after its last `.`, WITHOUT the dot; `none` when the file name contains no dot
or when its only dot is the leading character (a hidden file like `.json`). -/
def rustExtension (p : String) : Option String :=
  let name := fileNameChars p.data
  let extChars := (name.reverse.takeWhile (fun c => c ≠ '.')).reverse
  if extChars.length = name.length then none
  else if extChars.length + 1 = name.length then none
  else some (String.mk extChars)

/-- serde deserialization of `Config` from JSON5 text (the `json5::from_str`
call in `try_from_file`): with `#[serde(default)]` every omitted field takes its
default, and — since `Config` does not opt into `deny_unknown_fields` — unknown
top-level keys are ignored.  Only JSON5 syntax is accepted. -/
def json5_from_str : Content → Except Unit Config
  | .json5Doc f _ => .ok (mergeFragment Config.default f)
  | _ => .error ()

/-- TOML deserialization of `Config` (same serde semantics, TOML syntax only). -/
def toml_from_str : Content → Except Unit Config
  | .tomlDoc f _ => .ok (mergeFragment Config.default f)
  | _ => .error ()

/-- Parsing a file's text into a fragment under a fixed provider format
(figment's `Json` and `Toml` file providers).  The JSON provider is modelled as
accepting `json5Doc` contents; since the JSON dispatch arm of
`fig_file_format_helper` is unreachable (see the claim-C1 theorems), the
JSON-versus-JSON5 distinction is never observable through `Config::new`. -/
def parseFragment : FileFormat → Content → Except Unit Fragment
  | .json, .json5Doc f _ => .ok f
  | .toml, .tomlDoc f _ => .ok f
  | _, _ => .error ()

/-- The XDG base config directory: `$XDG_CONFIG_HOME` when set, otherwise
`$HOME/.config`; unresolvable (`none`) when neither variable is available
(behaviour of `xdg::BaseDirectories`). -/
def configHomeDir (env : OsEnv) : Option String :=
  match env.xdgConfigHome with
  | some d => some d
  | none => env.home.map (fun h => h ++ "/.config")

/-- Record a directory as existing (idempotent). -/
def insertDir (l : List String) (d : String) : List String :=
  if d ∈ l then l else l ++ [d]

/-- `default_config_file_path` (the non-Windows build):
`xdg::BaseDirectories::with_prefix("diffsitter")` followed by
`place_config_file(CFG_FILE_NAME)`.  Per the xdg crate's documented behaviour,
`place_config_file` returns `<config home>/diffsitter/config.json5` and
PRE-CREATES the leading directories; that creation is recorded in the returned
`FileSystem`.  `with_prefix` fails when no base directory resolves. -/
def default_config_file_path (env : OsEnv) (fs : FileSystem) :
    Except ConfigError (String × FileSystem) :=
  match configHomeDir env with
  | none => .error .noDefaultPath
  | some ch =>
    let appDir := ch ++ "/diffsitter"
    .ok (appDir ++ "/" ++ CFG_FILE_NAME, { fs with dirs := insertDir fs.dirs appDir })

/-- `config_file_path_helper`: the candidate config file paths implied by the
command-line arguments, highest precedence first.  `--no-config` short-circuits
to the empty list; otherwise the explicit path (when given) is followed by the
default OS path, and — exactly as the `?` in the source — a failure of
`default_config_file_path` propagates unconditionally. -/
def config_file_path_helper (args : Args) (env : OsEnv) (fs : FileSystem) :
    Except ConfigError (List String × FileSystem) :=
  if args.no_config then .ok ([], fs)
  else
    match default_config_file_path env fs with
    | .error e => .error e
    | .ok (dp, fs') =>
      .ok ((match args.config with | some p => [p] | none => []) ++ [dp], fs')

/-- Merging one file provider into the accumulated figment: a missing file is an
empty provider (figment file providers are empty when the file does not exist);
an existing file is parsed under the dispatched format and overlaid.  figment
defers a provider's parse error to `extract`; since `Config::new` calls
`extract` immediately after the merges with no intervening observation, raising
the error at merge time is observationally identical. -/
def figMergeFile (fig : Config) (fs : FileSystem) (path : String)
    (fmt : FileFormat) : Except ConfigError Config :=
  match fs.files path with
  | none => .ok fig
  | some content =>
    match parseFragment fmt content with
    | .ok frag => .ok (mergeFragment fig frag)
    | .error _ => .error (.deserializationFailure path)

/-- `fig_file_format_helper`: dispatch a figment provider by the path's
extension.  The source compares the dot-less `Path::extension()` string against
the dot-prefixed literals `".json"`, `".json5"` and `".toml"`, reproduced here
verbatim. -/
def fig_file_format_helper (fig : Config) (fs : FileSystem) (path : String) :
    Except ConfigError Config :=
  match rustExtension path with
  | none => .error (.invalidExtensionPath path)
  | some ext =>
    if ext = ".json" ∨ ext = ".json5" then figMergeFile fig fs path .json
    else if ext = ".toml" then figMergeFile fig fs path .toml
    else .error (.unrecognizedExtension ext)

/-- `Config::new`: the hierarchical load.  Start from
`Serialized::defaults(Config::default())`, merge the candidate files in reverse
order (lowest precedence first), merge `Env::prefixed("DIFFSITTER_")` last, and
extract.  `e` is the fragment the prefixed environment variables denote. -/
def Config.new (args : Args) (env : OsEnv) (fs : FileSystem) (e : Fragment) :
    Except ConfigError Config :=
  match config_file_path_helper args env fs with
  | .error err => .error err
  | .ok (cfg_paths, fs') =>
    match cfg_paths.reverse.foldlM (fun fig p => fig_file_format_helper fig fs' p)
        Config.default with
    | .error err => .error err
    | .ok fig => .ok (mergeFragment fig e)

/-- Reading and JSON5-deserializing one file (the body of `try_from_file` after
the path is fixed): a missing file is `ReadFileFailure`; content that the JSON5
parser rejects is `DeserializationFailure` carrying the offending path. -/
def readAndParse (fs : FileSystem) (p : String) : Except ReadError Config :=
  match fs.files p with
  | none => .error .ReadFileFailure
  | some content =>
    match json5_from_str content with
    | .ok c => .ok c
    | .error _ => .error (.DeserializationFailure p)

/-- `Config::try_from_file`: the strict single-file loader.  Uses the given path
when present, otherwise the default OS path (mapping its failure to
`NoDefault`), then reads and JSON5-parses that one file.  The resulting
filesystem is returned alongside because resolving the default path pre-creates
the config directory. -/
def Config.try_from_file (path : Option String) (env : OsEnv) (fs : FileSystem) :
    Except ReadError Config × FileSystem :=
  match path with
  | some p => (readAndParse fs p, fs)
  | none =>
    match default_config_file_path env fs with
    | .error _ => (.error .NoDefault, fs)
    | .ok (p, fs') => (readAndParse fs' p, fs')

/-- Whether `s` ends with `t` (on the character lists, for kernel evaluation). -/
def strEndsWith (s t : String) : Bool :=
  decide (s.data.reverse.take t.data.length = t.data.reverse)

/-- Reading and parsing one file the way the spec's §4.3/§4.5 describe the
strict loader: dispatch the parser by the file's format — `.json`/`.json5` via
JSON5, `.toml` via TOML, anything else rejected. -/
def readAndParseSpec (fs : FileSystem) (p : String) : Except ReadError Config :=
  match fs.files p with
  | none => .error .ReadFileFailure
  | some content =>
    let parsed : Except Unit Config :=
      if strEndsWith p ".json" ∨ strEndsWith p ".json5" then json5_from_str content
      else if strEndsWith p ".toml" then toml_from_str content
      else .error ()
    match parsed with
    | .ok c => .ok c
    | .error _ => .error (.DeserializationFailure p)

/-- Modelled from the spec (refinement comparison for claim C4): `loadExplicit`
as §4.5 states it — "reads exactly the given path (or the OS default if none
given), dispatches format, and deserializes directly". -/
def try_from_file_spec (path : Option String) (env : OsEnv) (fs : FileSystem) :
    Except ReadError Config × FileSystem :=
  match path with
  | some p => (readAndParseSpec fs p, fs)
  | none =>
    match default_config_file_path env fs with
    | .error _ => (.error .NoDefault, fs)
    | .ok (p, fs') => (readAndParseSpec fs' p, fs')

/-- serde serialization of a whole `Config` to JSON5 text: every field is
written out and no unknown keys are produced. -/
def Config.toJson5 (c : Config) : Content := .json5Doc (toFragment c) []

/-! Concrete fixtures used by witnesses and counterexamples. -/

/-- The empty filesystem. -/
def fs0 : FileSystem := {}

/-- An environment with a home directory and no `$XDG_CONFIG_HOME`. -/
def envHome : OsEnv := { home := some "/home/user" }

/-- An environment in which no base directory resolves. -/
def envNoHome : OsEnv := {}

/-- A fragment setting only `fallback-cmd`. -/
def fragD : Fragment := { fallback_cmd := some (some "diff") }

/-- A filesystem holding a well-formed TOML document at `/a.toml`. -/
def fsToml : FileSystem :=
  { files := fun p => if p = "/a.toml" then some (.tomlDoc fragD []) else none }

/-- A filesystem holding a JSON5 document at the `.toml`-named path `/b.toml`. -/
def fsJ : FileSystem :=
  { files := fun p => if p = "/b.toml" then some (.json5Doc fragD []) else none }

/-- CLI arguments supplying an explicit config path, without `--no-config`. -/
def args6 : Args := { config := some "/explicit.json5" }

/-- A fragment setting `fallback-cmd` to the explicit file's value. -/
def frag1 : Fragment := { fallback_cmd := some (some "explicit") }

/-- A fragment setting `fallback-cmd` to the OS-default file's value. -/
def frag2 : Fragment := { fallback_cmd := some (some "osdefault") }

/-- A filesystem holding both the explicit config file and the file at the
OS-default location for `envHome`, setting the same field differently. -/
def fs6 : FileSystem :=
  { files := fun p =>
      if p = "/explicit.json5" then some (.json5Doc frag1 [])
      else if p = "/home/user/.config/diffsitter/config.json5" then
        some (.json5Doc frag2 [])
      else none }

/-- The environment fragment denoting `DIFFSITTER_FALLBACK_CMD=env`. -/
def env6 : Fragment := { fallback_cmd := some (some "env") }

/-- A lower-precedence accumulator that has `fallback-cmd` already set. -/
def lowBase : Config := { fallback_cmd := some "diff" }

/-- A fragment setting only the `formatting` field. -/
def onlyFmt : Fragment := { formatting := some { payload := [("bold", "true")] } }

/-- A concrete configuration differing from the defaults in two fields. -/
def cfg9 : Config :=
  { fallback_cmd := some "difftool", file_associations := some [("ml", "ocaml")] }

/-- A filesystem holding the serialization of `cfg9` at `/cfg.json5`. -/
def fs9 : FileSystem :=
  { files := fun p => if p = "/cfg.json5" then some cfg9.toJson5 else none }

/-- A filesystem with an otherwise-empty config document carrying one unknown
top-level key at `/u.json5`. -/
def fsU1 : FileSystem :=
  { files := fun p =>
      if p = "/u.json5" then some (.json5Doc {} ["unknown-key"]) else none }

/-- The same filesystem as `fsU1` but with the unknown key removed. -/
def fsU2 : FileSystem :=
  { files := fun p => if p = "/u.json5" then some (.json5Doc {} []) else none }

/-! Helper lemmas. -/

/-- Overlaying the fragment that sets every field of `c` onto the defaults
recovers `c`. -/
theorem mergeFragment_toFragment (c : Config) :
    mergeFragment Config.default (toFragment c) = c := by
  cases c
  rfl

/-- Computing the default config file path never changes the file contents of
the filesystem (it only ensures a directory). -/
theorem default_config_file_path_files (env : OsEnv) (fs : FileSystem)
    (p : String) (fs' : FileSystem)
    (hp : default_config_file_path env fs = .ok (p, fs')) :
    fs'.files = fs.files := by
  unfold default_config_file_path at hp
  cases hch : configHomeDir env with
  | none =>
    rw [hch] at hp
    exact Except.noConfusion hp
  | some ch =>
    rw [hch] at hp
    injection hp with h
    injection h with h1 h2
    rw [← h2]

/-! Claim theorems. -/

/-- Claim C1: the spec states that a path with extension `.json`/`.json5` is
parsed with the JSON5 parser, `.toml` with the TOML parser, and anything else
fails with an unsupported-format error.  The code instead compares the dot-less
string returned by Rust's `Path::extension()` against the dot-prefixed literals
`".json"`, `".json5"`, `".toml"`, so every path — including the app's own
default config file name `config.json5` — falls to the catch-all error arm: the
dispatcher never selects a parser. -/
theorem claim_C1_dispatch_rejects_all :
    fig_file_format_helper Config.default fs0 "config.json5"
        = .error (.unrecognizedExtension "json5")
    ∧ fig_file_format_helper Config.default fs0 "a.json"
        = .error (.unrecognizedExtension "json")
    ∧ fig_file_format_helper Config.default fs0 "a.toml"
        = .error (.unrecognizedExtension "toml") :=
  ⟨rfl, rfl, rfl⟩

/-- Claim C2 counterexample: with `--no-config` the file sources are skipped,
but `Config::new` still merges `Env::prefixed("DIFFSITTER_")` afterwards, so an
environment override (here `DIFFSITTER_FALLBACK_CMD=diff`) makes the result
differ from `Config::default()` — refuting "returns exactly the built-in
defaults regardless of environment". -/
theorem claim_C2_counterexample :
    Config.new { no_config := true } envHome fs0 fragD
        = .ok { fallback_cmd := some "diff" }
    ∧ ({ fallback_cmd := some "diff" } : Config) ≠ Config.default :=
  ⟨rfl, by decide⟩

/-- Claim C2 (amended): with `--no-config`, for every filesystem and
environment the hierarchical load returns the built-in defaults overridden only
by the `DIFFSITTER_`-prefixed environment fragment; when no such variables are
set the result is exactly `Config::default()`. -/
theorem claim_C2_no_config_defaults :
    ∀ (args : Args) (env : OsEnv) (fs : FileSystem) (e : Fragment),
      args.no_config = true →
      Config.new args env fs e = .ok (mergeFragment Config.default e)
      ∧ Config.new args env fs {} = .ok Config.default := by
  intro args env fs e h
  constructor <;> simp [Config.new, config_file_path_helper, h] <;> rfl

/-- Claim C2 witness for the amended theorem at a concrete input. -/
theorem claim_C2_no_config_defaults_witness :
    Config.new { no_config := true } envHome fs0 env6
        = .ok (mergeFragment Config.default env6)
    ∧ Config.new { no_config := true } envHome fs0 {} = .ok Config.default :=
  claim_C2_no_config_defaults { no_config := true } envHome fs0 env6 rfl

/-- Claim C3 counterexample: with an explicit path supplied and the default
path unresolvable (no home directory), the resolver propagates the failure
instead of returning the explicit candidate alone, refuting "a failure to
compute the default path is ignored when at least one other candidate
exists". -/
theorem claim_C3_counterexample :
    config_file_path_helper { config := some "/x.json5" } envNoHome fs0
        = .error .noDefaultPath
    ∧ (Except.error ConfigError.noDefaultPath
        : Except ConfigError (List String × FileSystem))
        ≠ .ok (["/x.json5"], fs0) :=
  ⟨rfl, fun h => Except.noConfusion h⟩

/-- Claim C3 (amended): with the skip flag false, the resolver returns the
explicit path (when present) followed by the default OS path, in that order of
precedence; a failure to compute the default path always propagates as an
error, even when an explicit candidate exists. -/
theorem claim_C3_resolver_order :
    ∀ (args : Args) (env : OsEnv) (fs : FileSystem),
      args.no_config = false →
      (configHomeDir env = none →
        config_file_path_helper args env fs = .error .noDefaultPath)
      ∧ (∀ ch, configHomeDir env = some ch →
        config_file_path_helper args env fs =
          .ok (args.config.toList ++ [ch ++ "/diffsitter" ++ "/" ++ CFG_FILE_NAME],
               { fs with dirs := insertDir fs.dirs (ch ++ "/diffsitter") })) := by
  intro args env fs h
  obtain ⟨nc, cfg⟩ := args
  simp only at h
  subst h
  constructor
  · intro hch
    simp [config_file_path_helper, default_config_file_path, hch]
  · intro ch hch
    cases cfg <;>
      simp [config_file_path_helper, default_config_file_path, hch,
        Option.toList]

/-- Claim C3 witness for the amended theorem at a concrete input. -/
theorem claim_C3_resolver_order_witness :
    config_file_path_helper { config := some "/x.json5" } envHome fs0 =
      .ok (["/x.json5", "/home/user/.config/diffsitter/config.json5"],
           { fs0 with dirs := ["/home/user/.config/diffsitter"] }) :=
  (claim_C3_resolver_order { config := some "/x.json5" } envHome fs0 rfl).2
    "/home/user/.config" rfl

/-- Claim C4 counterexample: `try_from_file` does not dispatch a parser by the
file's format — a well-formed TOML document at a `.toml` path is fed to the
JSON5 parser and rejected, while the spec-modelled format-dispatching loader
accepts it. -/
theorem claim_C4_counterexample :
    (Config.try_from_file (some "/a.toml") envHome fsToml).fst
        = .error (.DeserializationFailure "/a.toml")
    ∧ (try_from_file_spec (some "/a.toml") envHome fsToml).fst
        = .ok { fallback_cmd := some "diff" } :=
  ⟨rfl, rfl⟩

/-- Claim C4 (amended): `try_from_file` reads exactly the given path (or the OS
default when none is given) and always deserializes with the permissive JSON5
parser regardless of the path's extension — TOML content is rejected even at a
`.toml` path — with no merging with environment variables or other files
(omitted fields take their serde defaults). -/
theorem claim_C4_strict_loader :
    ∀ (env : OsEnv) (fs : FileSystem) (p : String) (f : Fragment)
      (ks : List String),
      (fs.files p = some (.json5Doc f ks) →
        (Config.try_from_file (some p) env fs).fst
          = .ok (mergeFragment Config.default f))
      ∧ (fs.files p = some (.tomlDoc f ks) →
        (Config.try_from_file (some p) env fs).fst
          = .error (.DeserializationFailure p))
      ∧ (configHomeDir env = none →
        (Config.try_from_file none env fs).fst = .error .NoDefault) := by
  intro env fs p f ks
  refine ⟨?_, ?_, ?_⟩ <;> intro h <;>
    simp [Config.try_from_file, readAndParse, json5_from_str,
      default_config_file_path, h]

/-- Claim C4 witness: JSON5 content at a `.toml`-named path is parsed by the
JSON5 parser, showing the extension plays no role in the strict loader. -/
theorem claim_C4_strict_loader_witness :
    (Config.try_from_file (some "/b.toml") envHome fsJ).fst
        = .ok (mergeFragment Config.default fragD) :=
  (claim_C4_strict_loader envHome fsJ "/b.toml" fragD []).1 rfl

/-- Claim C5 counterexample: computing the default config file path goes
through xdg `place_config_file`, which pre-creates the application config
directory, so the filesystem does not stay unchanged — refuting "creates no
file or directory". -/
theorem claim_C5_counterexample :
    default_config_file_path envHome fs0
        = .ok ("/home/user/.config/diffsitter/config.json5",
               { fs0 with dirs := ["/home/user/.config/diffsitter"] })
    ∧ ["/home/user/.config/diffsitter"] ≠ fs0.dirs :=
  ⟨rfl, by decide⟩

/-- Claim C5 (amended): the computed default path is deterministic — it depends
only on the environment, never on the filesystem; the call fails exactly when
no base directory resolves; and it creates no file (only the application config
directory is ensured). -/
theorem claim_C5_default_path :
    ∀ (env : OsEnv) (fs₁ fs₂ : FileSystem),
      ((default_config_file_path env fs₁).toOption.map Prod.fst
        = (default_config_file_path env fs₂).toOption.map Prod.fst)
      ∧ ((default_config_file_path env fs₁).toOption.isSome
        = (configHomeDir env).isSome)
      ∧ (∀ p fs', default_config_file_path env fs₁ = .ok (p, fs') →
          fs'.files = fs₁.files) := by
  intro env fs₁ fs₂
  refine ⟨?_, ?_, fun p fs' hp => default_config_file_path_files env fs₁ p fs' hp⟩ <;>
    rcases env with ⟨h, x⟩ <;> cases x <;> cases h <;> rfl

/-- Claim C5 witness: the filesystem returned at a concrete input preserves the
file contents. -/
theorem claim_C5_default_path_witness :
    ({ fs0 with dirs := ["/home/user/.config/diffsitter"] } : FileSystem).files
      = fs0.files :=
  (claim_C5_default_path envHome fs0 fs0).2.2
    "/home/user/.config/diffsitter/config.json5"
    { fs0 with dirs := ["/home/user/.config/diffsitter"] } rfl

/-- Claim C6: the precedence chain the claim (and `Config::new`'s own
documentation) describes never materializes: because the extension dispatch
compares dot-prefixed literals against the dot-less `Path::extension()`, the
hierarchical load fails outright whenever any candidate file path is present.
At an input with an explicit file, an OS-default-location file and an
environment override all setting `fallback-cmd` differently, `Config::new`
returns the unrecognized-extension error instead of the environment's value. -/
theorem claim_C6_hierarchy_fails :
    Config.new args6 envHome fs6 env6 = .error (.unrecognizedExtension "json5") :=
  rfl

/-- Claim C7: the merge is a deep, field-by-field overlay — every field absent
from a fragment leaves the accumulator's value untouched, so a fragment that
sets only one field preserves every other field set by lower-precedence
sources or defaults. -/
theorem claim_C7_deep_merge :
    ∀ (c : Config) (f : Fragment),
      (f.file_associations = none →
        (mergeFragment c f).file_associations = c.file_associations)
      ∧ (f.formatting = none → (mergeFragment c f).formatting = c.formatting)
      ∧ (f.grammar = none → (mergeFragment c f).grammar = c.grammar)
      ∧ (f.input_processing = none →
        (mergeFragment c f).input_processing = c.input_processing)
      ∧ (f.fallback_cmd = none →
        (mergeFragment c f).fallback_cmd = c.fallback_cmd) := by
  intro c f
  refine ⟨?_, ?_, ?_, ?_, ?_⟩ <;> intro h <;> simp [mergeFragment, h]

/-- Claim C7 witness: a fragment setting only `formatting` keeps the
`fallback-cmd` value a lower-precedence source had set. -/
theorem claim_C7_deep_merge_witness :
    (mergeFragment lowBase onlyFmt).fallback_cmd = lowBase.fallback_cmd :=
  (claim_C7_deep_merge lowBase onlyFmt).2.2.2.2 rfl

/-- Claim C8: when `--no-config` is set the candidate-path resolver returns the
empty list unconditionally, even when an explicit path is supplied. -/
theorem claim_C8_skip_empty :
    ∀ (args : Args) (env : OsEnv) (fs : FileSystem),
      args.no_config = true →
      config_file_path_helper args env fs = .ok ([], fs) := by
  intro args env fs h
  simp [config_file_path_helper, h]

/-- Claim C8 witness: the empty list is returned even with an explicit path
present and no resolvable home directory. -/
theorem claim_C8_skip_empty_witness :
    config_file_path_helper { no_config := true, config := some "/x2.json5" }
      envNoHome fs0 = .ok ([], fs0) :=
  claim_C8_skip_empty { no_config := true, config := some "/x2.json5" }
    envNoHome fs0 rfl

/-- Claim C9: round-trip — serializing a `Config` to JSON5 and re-parsing the
serialized text via the strict single-file loader yields an equal `Config`. -/
theorem claim_C9_round_trip :
    ∀ (c : Config) (p : String) (env : OsEnv) (fs : FileSystem),
      fs.files p = some c.toJson5 →
      (Config.try_from_file (some p) env fs).fst = .ok c := by
  intro c p env fs h
  simp [Config.try_from_file, readAndParse, h, Config.toJson5, json5_from_str,
    mergeFragment_toFragment]

/-- Claim C9 witness: the round trip at a concrete non-default `Config`. -/
theorem claim_C9_round_trip_witness :
    (Config.try_from_file (some "/cfg.json5") envHome fs9).fst = .ok cfg9 :=
  claim_C9_round_trip cfg9 "/cfg.json5" envHome fs9 rfl

/-- Claim C10: `try_from_file` is lenient about unknown keys — adding a
top-level key matching no `Config` field neither errors nor changes any field
of the result — and every field the file omits takes its serde-declared
default. -/
theorem claim_C10_lenient :
    ∀ (env : OsEnv) (p : String) (f : Fragment) (ks₁ ks₂ : List String)
      (fs₁ fs₂ : FileSystem),
      fs₁.files p = some (.json5Doc f ks₁) →
      fs₂.files p = some (.json5Doc f ks₂) →
      ((Config.try_from_file (some p) env fs₁).fst
        = (Config.try_from_file (some p) env fs₂).fst)
      ∧ ((Config.try_from_file (some p) env fs₁).fst
        = .ok (mergeFragment Config.default f))
      ∧ (f.file_associations = none →
        (mergeFragment Config.default f).file_associations
          = Config.default.file_associations)
      ∧ (f.formatting = none →
        (mergeFragment Config.default f).formatting = Config.default.formatting)
      ∧ (f.grammar = none →
        (mergeFragment Config.default f).grammar = Config.default.grammar)
      ∧ (f.input_processing = none →
        (mergeFragment Config.default f).input_processing
          = Config.default.input_processing)
      ∧ (f.fallback_cmd = none →
        (mergeFragment Config.default f).fallback_cmd
          = Config.default.fallback_cmd) := by
  intro env p f ks₁ ks₂ fs₁ fs₂ h₁ h₂
  refine ⟨?_, ?_, ?_, ?_, ?_, ?_, ?_⟩ <;>
    first
      | simp [Config.try_from_file, readAndParse, json5_from_str, h₁, h₂]
      | (intro h; simp [mergeFragment, h])

/-- Claim C10 witness: the unknown key `unknown-key` changes nothing, and the
empty document yields exactly the defaults. -/
theorem claim_C10_lenient_witness :
    (Config.try_from_file (some "/u.json5") envHome fsU1).fst
      = (Config.try_from_file (some "/u.json5") envHome fsU2).fst :=
  (claim_C10_lenient envHome "/u.json5" {} ["unknown-key"] [] fsU1 fsU2
    rfl rfl).1
